import Mathlib

/-!
Verification of the temporal event-detection core of the habit-exposer
repository (`src/core/proximity_analyzer.py`).

The embedding is a direct translation of the Python class `ProximityAnalyzer`:
its mutable attributes become a state record, each method becomes a pure
function, and the single impure ingredients of `analyze` — `datetime.now()`
and `uuid.uuid4()` — become explicit parameters `now : ℤ` and `eid : String`
of the step function.  Bounding-box coordinates are kept abstract: a type `α`
together with a boolean strict-order test `blt : α → α → Bool`, which models
Python float comparison (an arbitrary total boolean function; NaN-style
incomparable values are those on which `blt` is `false` both ways).  Python
code that can raise (tuple-unpacking a bounding box that does not have exactly
four coordinates) is modelled with `Option`: a `none` result of `analyze`
marks an uncaught exception.
-/

namespace HabitExposer

/-- One detection record handed to the analyzer: a bounding box
`[x1, y1, x2, y2]`, a confidence score and a derived center point.
Only `bbox` is ever read by the core. -/
structure Detection (α : Type) where
  bbox : List α
  confidence : α
  center : α × α
deriving DecidableEq

/-- The per-frame input of `ProximityAnalyzer.analyze`: the dictionary
`{'persons': [...], 'phones': [...]}`. -/
structure DetectionFrame (α : Type) where
  persons : List (Detection α)
  phones : List (Detection α)
deriving DecidableEq

/-- The dataclass `PhoneUsageEvent` of `proximity_analyzer.py`. -/
structure PhoneUsageEvent (α : Type) where
  event_id : String
  start_time : ℤ
  person_bbox : List α
  phone_bbox : List α
  frame_count : Nat
deriving DecidableEq

/-- The mutable state of a `ProximityAnalyzer` instance: the two
configuration values set in `__init__`, the `deque(maxlen=temporal_frames)`
of recent boolean outcomes, the optional active event and the optional
timestamp of the last event end (`last_event_time`). -/
structure ProximityAnalyzer (α : Type) where
  temporal_frames : Nat
  cooldown_seconds : ℤ
  detection_history : List Bool
  active_event : Option (PhoneUsageEvent α)
  last_event_time : Option ℤ
deriving DecidableEq

/-- `deque(maxlen=maxlen).append b`: append on the right, evict from the
left once the buffer holds `maxlen` entries. -/
def dequePush (maxlen : Nat) (l : List Bool) (b : Bool) : List Bool :=
  let l2 := l ++ [b]
  l2.drop (l2.length - maxlen)

/-- `ProximityAnalyzer.__init__`: empty history, no active event, no
last-event timestamp. -/
def initAnalyzer (α : Type) (temporal_frames : Nat) (cooldown_seconds : ℤ) :
    ProximityAnalyzer α :=
  ⟨temporal_frames, cooldown_seconds, [], none, none⟩

/-- `ProximityAnalyzer._boxes_overlap`.  The Python body unpacks each box
into exactly four coordinates (raising otherwise, modelled as `none`) and
tests `x1_1 < x2_2 and x2_1 > x1_2` on the X axis and the same on Y; the
comparison `a > b` on Python floats is `b < a`, so a single `blt` serves
both operators. -/
def boxes_overlap {α : Type} (blt : α → α → Bool) (bbox1 bbox2 : List α) :
    Option Bool :=
  match bbox1, bbox2 with
  | [x1_1, y1_1, x2_1, y2_1], [x1_2, y1_2, x2_2, y2_2] =>
    some ((blt x1_1 x2_2 && blt x1_2 x2_1) && (blt y1_1 y2_2 && blt y1_2 y2_1))
  | _, _ => none

/-- The inner `for phone in phones` loop of `analyze`: first phone whose box
overlaps the given person's box, stopping at the first hit (`break`). -/
def findPhoneOverlap {α : Type} (blt : α → α → Bool) (person : Detection α) :
    List (Detection α) → Option (Option (Detection α))
  | [] => some none
  | phone :: rest =>
    match boxes_overlap blt person.bbox phone.bbox with
    | none => none
    | some true => some (some phone)
    | some false => findPhoneOverlap blt person rest

/-- The outer `for person in persons` loop of `analyze`: person-major scan
returning the first overlapping (person, phone) pair. -/
def findOverlapPair {α : Type} (blt : α → α → Bool) :
    List (Detection α) → List (Detection α) →
    Option (Option (Detection α × Detection α))
  | [], _ => some none
  | person :: rest, phones =>
    match findPhoneOverlap blt person phones with
    | none => none
    | some (some phone) => some (some (person, phone))
    | some none => findOverlapPair blt rest phones

/-- The classifier part of `analyze` (lines 34–51): empty person or phone
list short-circuits to no overlap without touching any box; otherwise the
first overlapping pair is searched. -/
def classify {α : Type} (blt : α → α → Bool) (detections : DetectionFrame α) :
    Option (Option (Detection α × Detection α)) :=
  if detections.persons.isEmpty || detections.phones.isEmpty then some none
  else findOverlapPair blt detections.persons detections.phones

/-- `ProximityAnalyzer._is_temporally_consistent`: the history must hold at
least `temporal_frames` entries and all of them must be `true`. -/
def is_temporally_consistent {α : Type} (st : ProximityAnalyzer α) : Bool :=
  if st.detection_history.length < st.temporal_frames then false
  else st.detection_history.all id

/-- The cooldown test of `_handle_confirmed_detection` (lines 112–115):
`last_event_time` is set and strictly less than `cooldown_seconds` ago. -/
def cooldown_active {α : Type} (st : ProximityAnalyzer α) (now : ℤ) : Bool :=
  match st.last_event_time with
  | some t => decide (now - t < st.cooldown_seconds)
  | none => false

/-- `ProximityAnalyzer._handle_confirmed_detection`: inside the cooldown
return nothing; otherwise create a fresh event (and return it — the sole
notification) when none is active, or bump the active event's
`frame_count` silently. -/
def handle_confirmed_detection {α : Type} (st : ProximityAnalyzer α)
    (now : ℤ) (eid : String) (person phone : Detection α) :
    ProximityAnalyzer α × Option (PhoneUsageEvent α) :=
  if cooldown_active st now then (st, none)
  else
    match st.active_event with
    | none =>
      let ev : PhoneUsageEvent α := ⟨eid, now, person.bbox, phone.bbox, 1⟩
      ({ st with active_event := some ev }, some ev)
    | some ev =>
      ({ st with active_event := some { ev with frame_count := ev.frame_count + 1 } },
       none)

/-- `ProximityAnalyzer._check_event_end`: end the active event (record the
end time, clear the slot) only when one is active and the history holds no
`true` at all. -/
def check_event_end {α : Type} (st : ProximityAnalyzer α) (now : ℤ) :
    ProximityAnalyzer α :=
  match st.active_event with
  | some _ =>
    if st.detection_history.any id then st
    else { st with last_event_time := some now, active_event := none }
  | none => st

/-- `self.detection_history.append b` on the state. -/
def pushHist {α : Type} (st : ProximityAnalyzer α) (b : Bool) :
    ProximityAnalyzer α :=
  { st with
      detection_history := dequePush st.temporal_frames st.detection_history b }

/-- `ProximityAnalyzer.analyze`: the per-frame step.  Returns the updated
state and the optional event-started notification; `none` marks an uncaught
Python exception (malformed bounding box). -/
def analyze {α : Type} (blt : α → α → Bool) (st : ProximityAnalyzer α)
    (detections : DetectionFrame α) (now : ℤ) (eid : String) :
    Option (ProximityAnalyzer α × Option (PhoneUsageEvent α)) :=
  match classify blt detections with
  | none => none
  | some none => some (check_event_end (pushHist st false) now, none)
  | some (some (person, phone)) =>
    let st1 := pushHist st true
    if is_temporally_consistent st1 then
      some (handle_confirmed_detection st1 now eid person phone)
    else
      some (st1, none)

/-- Run `analyze` over a list of (frame, timestamp, fresh-id) triples,
collecting every emitted notification; `none` as soon as one call raises. -/
def runSteps {α : Type} (blt : α → α → Bool) (st : ProximityAnalyzer α) :
    List (DetectionFrame α × ℤ × String) →
    Option (ProximityAnalyzer α × List (PhoneUsageEvent α))
  | [] => some (st, [])
  | (f, now, eid) :: rest =>
    match analyze blt st f now eid with
    | none => none
    | some (st2, out) =>
      match runSteps blt st2 rest with
      | none => none
      | some (stf, evs) => some (stf, out.toList ++ evs)

/-- Strict order on ℤ as a boolean test: the concrete instantiation of the
abstract coordinate comparison for whole-number examples. -/
def bltZ (a b : ℤ) : Bool := decide (a < b)

/-- Build a detection from four integer box coordinates, deriving the center
the way the upstream detector does (`(x1+x2)/2`, `(y1+y2)/2`). -/
def mkDet (x1 y1 x2 y2 : ℤ) : Detection ℤ :=
  ⟨[x1, y1, x2, y2], 1, ((x1 + x2) / 2, (y1 + y2) / 2)⟩

/-- A frame whose single person box (0,0,10,10) and phone box (5,5,15,15)
overlap. -/
def ovFrame : DetectionFrame ℤ :=
  ⟨[mkDet 0 0 10 10], [mkDet 5 5 15 15]⟩

/-- A frame whose person box (0,0,10,10) and phone box (10,0,20,10) share
only a boundary edge. -/
def edgeFrame : DetectionFrame ℤ :=
  ⟨[mkDet 0 0 10 10], [mkDet 10 0 20 10]⟩

/-! ### Characterization lemmas for the individual branches of `analyze` -/

lemma pushHist_active_event {α : Type} (st : ProximityAnalyzer α) (b : Bool) :
    (pushHist st b).active_event = st.active_event := rfl

lemma pushHist_last_event_time {α : Type} (st : ProximityAnalyzer α) (b : Bool) :
    (pushHist st b).last_event_time = st.last_event_time := rfl

lemma pushHist_temporal_frames {α : Type} (st : ProximityAnalyzer α) (b : Bool) :
    (pushHist st b).temporal_frames = st.temporal_frames := rfl

lemma pushHist_cooldown_seconds {α : Type} (st : ProximityAnalyzer α) (b : Bool) :
    (pushHist st b).cooldown_seconds = st.cooldown_seconds := rfl

lemma pushHist_detection_history {α : Type} (st : ProximityAnalyzer α) (b : Bool) :
    (pushHist st b).detection_history =
      dequePush st.temporal_frames st.detection_history b := rfl

lemma cooldown_active_pushHist {α : Type} (st : ProximityAnalyzer α) (b : Bool)
    (now : ℤ) : cooldown_active (pushHist st b) now = cooldown_active st now := rfl

lemma analyze_classify_none {α : Type} (blt : α → α → Bool)
    (st : ProximityAnalyzer α) (f : DetectionFrame α) (now : ℤ) (eid : String)
    (h : classify blt f = some none) :
    analyze blt st f now eid = some (check_event_end (pushHist st false) now, none) := by
  unfold analyze
  rw [h]

lemma analyze_classify_raises {α : Type} (blt : α → α → Bool)
    (st : ProximityAnalyzer α) (f : DetectionFrame α) (now : ℤ) (eid : String)
    (h : classify blt f = none) : analyze blt st f now eid = none := by
  unfold analyze
  rw [h]

lemma analyze_found_inconsistent {α : Type} (blt : α → α → Bool)
    (st : ProximityAnalyzer α) (f : DetectionFrame α) (now : ℤ) (eid : String)
    (p ph : Detection α) (h : classify blt f = some (some (p, ph)))
    (hc : is_temporally_consistent (pushHist st true) = false) :
    analyze blt st f now eid = some (pushHist st true, none) := by
  unfold analyze
  rw [h]
  simp [hc]

lemma analyze_found_consistent {α : Type} (blt : α → α → Bool)
    (st : ProximityAnalyzer α) (f : DetectionFrame α) (now : ℤ) (eid : String)
    (p ph : Detection α) (h : classify blt f = some (some (p, ph)))
    (hc : is_temporally_consistent (pushHist st true) = true) :
    analyze blt st f now eid =
      some (handle_confirmed_detection (pushHist st true) now eid p ph) := by
  unfold analyze
  rw [h]
  simp [hc]

lemma handle_cooldown {α : Type} (st : ProximityAnalyzer α) (now : ℤ)
    (eid : String) (person phone : Detection α)
    (h : cooldown_active st now = true) :
    handle_confirmed_detection st now eid person phone = (st, none) := by
  unfold handle_confirmed_detection
  rw [h]
  simp

lemma handle_create {α : Type} (st : ProximityAnalyzer α) (now : ℤ)
    (eid : String) (person phone : Detection α)
    (h : cooldown_active st now = false) (ha : st.active_event = none) :
    handle_confirmed_detection st now eid person phone =
      ({ st with active_event := some ⟨eid, now, person.bbox, phone.bbox, 1⟩ },
       some ⟨eid, now, person.bbox, phone.bbox, 1⟩) := by
  unfold handle_confirmed_detection
  rw [h, ha]
  simp

lemma handle_increment {α : Type} (st : ProximityAnalyzer α) (now : ℤ)
    (eid : String) (person phone : Detection α) (ev : PhoneUsageEvent α)
    (h : cooldown_active st now = false) (ha : st.active_event = some ev) :
    handle_confirmed_detection st now eid person phone =
      ({ st with active_event := some { ev with frame_count := ev.frame_count + 1 } },
       none) := by
  unfold handle_confirmed_detection
  rw [h, ha]
  simp

lemma check_event_end_no_active {α : Type} (st : ProximityAnalyzer α) (now : ℤ)
    (h : st.active_event = none) : check_event_end st now = st := by
  unfold check_event_end
  rw [h]

lemma check_event_end_some_true {α : Type} (st : ProximityAnalyzer α) (now : ℤ)
    (ev : PhoneUsageEvent α) (h : st.active_event = some ev)
    (ht : st.detection_history.any id = true) : check_event_end st now = st := by
  unfold check_event_end
  rw [h]
  simp [ht]

lemma check_event_end_all_false {α : Type} (st : ProximityAnalyzer α) (now : ℤ)
    (ev : PhoneUsageEvent α) (h : st.active_event = some ev)
    (ht : st.detection_history.any id = false) :
    check_event_end st now =
      { st with last_event_time := some now, active_event := none } := by
  unfold check_event_end
  rw [h]
  simp [ht]

lemma cooldown_active_eq_true {α : Type} (st : ProximityAnalyzer α) (now : ℤ) :
    cooldown_active st now = true ↔
      ∃ t, st.last_event_time = some t ∧ now - t < st.cooldown_seconds := by
  unfold cooldown_active
  rcases st.last_event_time with _ | t <;> simp

lemma cooldown_active_eq_false {α : Type} (st : ProximityAnalyzer α) (now : ℤ) :
    cooldown_active st now = false ↔
      ∀ t, st.last_event_time = some t → st.cooldown_seconds ≤ now - t := by
  unfold cooldown_active
  rcases st.last_event_time with _ | t <;> simp [not_lt]

/-! ### Concrete states for witnesses -/

/-- Analyzer with N = 3, cooldown 10, two `true` frames seen, no active
event, no previous event. -/
def stPre : ProximityAnalyzer ℤ := ⟨3, 10, [true, true], none, none⟩

/-- The event created from `stPre` by an `ovFrame` call at time 2. -/
def evNew : PhoneUsageEvent ℤ := ⟨"e1", 2, [0, 0, 10, 10], [5, 5, 15, 15], 1⟩

/-- The analyzer state after that creating call. -/
def stPost : ProximityAnalyzer ℤ := ⟨3, 10, [true, true, true], some evNew, none⟩

/-! ### Claim theorems -/

/-- C1: whenever `analyze` returns a notification, it is the creation call —
the pre-state had no active event, the returned event carries the supplied
fresh identifier, `start_time = now`, the bounding boxes of the pair found
by the classifier and `frame_count = 1`, and it becomes the active event;
and every call entered with an active event returns nothing. -/
theorem C1_notification_exactly_once {α : Type} (blt : α → α → Bool)
    (st : ProximityAnalyzer α) (f : DetectionFrame α) (now : ℤ) (eid : String)
    (st2 : ProximityAnalyzer α) (out : Option (PhoneUsageEvent α))
    (hrun : analyze blt st f now eid = some (st2, out)) :
    (∀ ev, out = some ev →
      st.active_event = none ∧ ev.event_id = eid ∧ ev.start_time = now ∧
      ev.frame_count = 1 ∧ st2.active_event = some ev ∧
      ∃ p ph, classify blt f = some (some (p, ph)) ∧
        ev.person_bbox = p.bbox ∧ ev.phone_bbox = ph.bbox) ∧
    (∀ e0, st.active_event = some e0 → out = none) := by
  rcases hclass : classify blt f with _ | o
  · rw [analyze_classify_raises blt st f now eid hclass] at hrun
    cases hrun
  rcases o with _ | ⟨p, ph⟩
  · rw [analyze_classify_none blt st f now eid hclass] at hrun
    injection hrun with h
    injection h with hst hout
    refine ⟨fun ev hev => ?_, fun e0 _ => hout.symm⟩
    rw [← hout] at hev
    cases hev
  cases hc : is_temporally_consistent (pushHist st true) with
  | false =>
    rw [analyze_found_inconsistent blt st f now eid p ph hclass hc] at hrun
    injection hrun with h
    injection h with hst hout
    refine ⟨fun ev hev => ?_, fun e0 _ => hout.symm⟩
    rw [← hout] at hev
    cases hev
  | true =>
    rw [analyze_found_consistent blt st f now eid p ph hclass hc] at hrun
    cases hcd : cooldown_active (pushHist st true) now with
    | true =>
      rw [handle_cooldown _ _ _ _ _ hcd] at hrun
      injection hrun with h
      injection h with hst hout
      refine ⟨fun ev hev => ?_, fun e0 _ => hout.symm⟩
      rw [← hout] at hev
      cases hev
    | false =>
      rcases hae : st.active_event with _ | e0
      · have hae2 : (pushHist st true).active_event = none := hae
        rw [handle_create _ _ _ _ _ hcd hae2] at hrun
        injection hrun with h
        injection h with hst hout
        refine ⟨fun ev hev => ?_, fun e0 h0 => ?_⟩
        · rw [← hout] at hev
          injection hev with hev2
          subst hev2
          exact ⟨rfl, rfl, rfl, rfl, by rw [← hst], p, ph, rfl, rfl, rfl⟩
        · cases h0
      · have hae2 : (pushHist st true).active_event = some e0 := hae
        rw [handle_increment _ _ _ _ _ e0 hcd hae2] at hrun
        injection hrun with h
        injection h with hst hout
        refine ⟨fun ev hev => ?_, fun _ _ => hout.symm⟩
        rw [← hout] at hev
        cases hev

/-- C1 witness: the concrete creating call from `stPre` (window `[T,T]`,
N = 3) on `ovFrame` at time 2 satisfies the creation facts. -/
theorem C1_witness :
    stPre.active_event = none ∧ evNew.frame_count = 1 ∧
    evNew.start_time = 2 ∧ stPost.active_event = some evNew :=
  have h := C1_notification_exactly_once bltZ stPre ovFrame 2 "e1" stPost
    (some evNew) (by decide)
  ⟨(h.1 evNew rfl).1, (h.1 evNew rfl).2.2.2.1, (h.1 evNew rfl).2.2.1,
   (h.1 evNew rfl).2.2.2.2.1⟩

/-- C2: on every call where the classifier finds an overlapping pair, `true`
is pushed into the window, and unless the pushed window is temporally
consistent (full and all `true`) the call returns nothing, creates no event
and mutates no event; with N = 3 the overlap sequence
[overlap, overlap, no-overlap] never creates an event. -/
theorem C2_window_gate {α : Type} (blt : α → α → Bool)
    (st : ProximityAnalyzer α) (f : DetectionFrame α) (now : ℤ) (eid : String)
    (st2 : ProximityAnalyzer α) (out : Option (PhoneUsageEvent α))
    (p ph : Detection α) (hfound : classify blt f = some (some (p, ph)))
    (hrun : analyze blt st f now eid = some (st2, out)) :
    st2.detection_history = dequePush st.temporal_frames st.detection_history true ∧
    (is_temporally_consistent (pushHist st true) = false →
      out = none ∧ st2.active_event = st.active_event ∧
      st2.last_event_time = st.last_event_time) ∧
    (runSteps bltZ (initAnalyzer ℤ 3 10)
      [(ovFrame, 0, "a"), (ovFrame, 1, "b"), (edgeFrame, 2, "c")]).map
      (fun r => (r.1.active_event, r.2)) = some (none, []) := by
  refine ⟨?_, ?_, by decide⟩
  · cases hc : is_temporally_consistent (pushHist st true) with
    | false =>
      rw [analyze_found_inconsistent blt st f now eid p ph hfound hc] at hrun
      injection hrun with h
      injection h with hst hout
      rw [← hst]
      rfl
    | true =>
      rw [analyze_found_consistent blt st f now eid p ph hfound hc] at hrun
      cases hcd : cooldown_active (pushHist st true) now with
      | true =>
        rw [handle_cooldown _ _ _ _ _ hcd] at hrun
        injection hrun with h
        injection h with hst hout
        rw [← hst]
        rfl
      | false =>
        rcases hae : (pushHist st true).active_event with _ | e0
        · rw [handle_create _ _ _ _ _ hcd hae] at hrun
          injection hrun with h
          injection h with hst hout
          rw [← hst]
          rfl
        · rw [handle_increment _ _ _ _ _ e0 hcd hae] at hrun
          injection hrun with h
          injection h with hst hout
          rw [← hst]
          rfl
  · intro hc
    rw [analyze_found_inconsistent blt st f now eid p ph hfound hc] at hrun
    injection hrun with h
    injection h with hst hout
    exact ⟨hout.symm, by rw [← hst]; rfl, by rw [← hst]; rfl⟩

/-- C2 witness: the first `ovFrame` call from a fresh N = 3 analyzer pushes
`[true]`, returns nothing and touches no event state. -/
theorem C2_witness :
    (⟨3, 10, [true], none, none⟩ : ProximityAnalyzer ℤ).detection_history =
      dequePush 3 [] true ∧
    (none : Option (PhoneUsageEvent ℤ)) = none ∧
    (⟨3, 10, [true], none, none⟩ : ProximityAnalyzer ℤ).active_event = none :=
  have h := C2_window_gate bltZ (initAnalyzer ℤ 3 10) ovFrame 0 "a"
    ⟨3, 10, [true], none, none⟩ none (mkDet 0 0 10 10) (mkDet 5 5 15 15)
    (by decide) (by decide)
  ⟨h.1, (h.2.1 (by decide)).1, (h.2.1 (by decide)).2.1⟩

/-- C3: once temporal consistency is achieved on a call, a set last-event-end
timestamp strictly within the cooldown suppresses the call (nothing returned,
no event state change) even with no active event; and with the cooldown
elapsed and no active event, the call creates and returns a new event. -/
theorem C3_cooldown_gate {α : Type} (blt : α → α → Bool)
    (st : ProximityAnalyzer α) (f : DetectionFrame α) (now : ℤ) (eid : String)
    (st2 : ProximityAnalyzer α) (out : Option (PhoneUsageEvent α))
    (p ph : Detection α) (hfound : classify blt f = some (some (p, ph)))
    (hcons : is_temporally_consistent (pushHist st true) = true)
    (hrun : analyze blt st f now eid = some (st2, out)) :
    (∀ t, st.last_event_time = some t → now - t < st.cooldown_seconds →
      out = none ∧ st2.active_event = st.active_event ∧
      st2.last_event_time = st.last_event_time) ∧
    (st.active_event = none →
      (∀ t, st.last_event_time = some t → st.cooldown_seconds ≤ now - t) →
      ∃ ev, out = some ev ∧ st2.active_event = some ev) := by
  rw [analyze_found_consistent blt st f now eid p ph hfound hcons] at hrun
  constructor
  · intro t ht hlt
    have hcd : cooldown_active (pushHist st true) now = true := by
      rw [cooldown_active_pushHist]
      exact (cooldown_active_eq_true st now).mpr ⟨t, ht, hlt⟩
    rw [handle_cooldown _ _ _ _ _ hcd] at hrun
    injection hrun with h
    injection h with hst hout
    exact ⟨hout.symm, by rw [← hst]; rfl, by rw [← hst]; rfl⟩
  · intro hae hge
    have hcd : cooldown_active (pushHist st true) now = false := by
      rw [cooldown_active_pushHist]
      exact (cooldown_active_eq_false st now).mpr hge
    have hae2 : (pushHist st true).active_event = none := hae
    rw [handle_create _ _ _ _ _ hcd hae2] at hrun
    injection hrun with h
    injection h with hst hout
    exact ⟨⟨eid, now, p.bbox, ph.bbox, 1⟩, hout.symm, by rw [← hst]⟩

/-- C3 witness: from window `[T,T]`, last event end 0, cooldown 10, an
`ovFrame` call at time 5 is suppressed; the same call with last event end
`-9` (cooldown elapsed) creates an event. -/
theorem C3_witness :
    ((none : Option (PhoneUsageEvent ℤ)) = none ∧
      (⟨3, 10, [true, true, true], none, some 0⟩ : ProximityAnalyzer ℤ).active_event =
        (⟨3, 10, [true, true], none, some 0⟩ : ProximityAnalyzer ℤ).active_event) ∧
    ∃ ev, (some (⟨"g", 5, [0, 0, 10, 10], [5, 5, 15, 15], 1⟩ : PhoneUsageEvent ℤ) =
      some ev) ∧
      (⟨3, 10, [true, true, true],
        some ⟨"g", 5, [0, 0, 10, 10], [5, 5, 15, 15], 1⟩, some (-9)⟩ :
          ProximityAnalyzer ℤ).active_event = some ev :=
  have h1 := C3_cooldown_gate bltZ ⟨3, 10, [true, true], none, some 0⟩ ovFrame 5
    "g" ⟨3, 10, [true, true, true], none, some 0⟩ none
    (mkDet 0 0 10 10) (mkDet 5 5 15 15) (by decide) (by decide) (by decide)
  have h2 := C3_cooldown_gate bltZ ⟨3, 10, [true, true], none, some (-9)⟩ ovFrame 5
    "g" ⟨3, 10, [true, true, true],
      some ⟨"g", 5, [0, 0, 10, 10], [5, 5, 15, 15], 1⟩, some (-9)⟩
    (some ⟨"g", 5, [0, 0, 10, 10], [5, 5, 15, 15], 1⟩)
    (mkDet 0 0 10 10) (mkDet 5 5 15 15) (by decide) (by decide) (by decide)
  ⟨⟨(h1.1 0 rfl (by decide)).1, (h1.1 0 rfl (by decide)).2.1⟩,
   h2.2 rfl (fun t ht => by injection ht with ht2; rw [← ht2]; decide)⟩

/-- C4: a call entered with an active event ends it exactly when the
classifier result is NONE (a `false` is pushed) and the pushed window
contains no `true` entry; ending records `now` as the last-event-end.
Hence an active event never ends while any `true` remains in the window. -/
theorem C4_event_end {α : Type} (blt : α → α → Bool)
    (st : ProximityAnalyzer α) (f : DetectionFrame α) (now : ℤ) (eid : String)
    (st2 : ProximityAnalyzer α) (out : Option (PhoneUsageEvent α))
    (ev : PhoneUsageEvent α) (hact : st.active_event = some ev)
    (hrun : analyze blt st f now eid = some (st2, out)) :
    (st2.active_event = none ↔
      classify blt f = some none ∧
      (dequePush st.temporal_frames st.detection_history false).any id = false) ∧
    (st2.active_event = none → st2.last_event_time = some now) := by
  rcases hclass : classify blt f with _ | o
  · rw [analyze_classify_raises blt st f now eid hclass] at hrun
    cases hrun
  rcases o with _ | ⟨p, ph⟩
  · rw [analyze_classify_none blt st f now eid hclass] at hrun
    have hact2 : (pushHist st false).active_event = some ev := hact
    cases hany : (dequePush st.temporal_frames st.detection_history false).any id with
    | false =>
      have hany2 : (pushHist st false).detection_history.any id = false := hany
      rw [check_event_end_all_false _ _ ev hact2 hany2] at hrun
      injection hrun with h
      injection h with hst hout
      rw [← hst]
      exact ⟨by simp, fun _ => rfl⟩
    | true =>
      have hany2 : (pushHist st false).detection_history.any id = true := hany
      rw [check_event_end_some_true _ _ ev hact2 hany2] at hrun
      injection hrun with h
      injection h with hst hout
      rw [← hst]
      constructor
      · rw [pushHist_active_event, hact]
        simp
      · intro hnone
        rw [pushHist_active_event, hact] at hnone
        cases hnone
  · have hsome2 : ∀ s : ProximityAnalyzer α, s.active_event = some ev →
        ∀ r, handle_confirmed_detection s now eid p ph = r →
        ∃ e2, r.1.active_event = some e2 := by
      intro s hs r hr
      cases hcd : cooldown_active s now with
      | true =>
        rw [handle_cooldown _ _ _ _ _ hcd] at hr
        exact ⟨ev, by rw [← hr]; exact hs⟩
      | false =>
        rw [handle_increment _ _ _ _ _ ev hcd hs] at hr
        exact ⟨{ ev with frame_count := ev.frame_count + 1 }, by rw [← hr]⟩
    have hfalse : st2.active_event ≠ none := by
      cases hc : is_temporally_consistent (pushHist st true) with
      | false =>
        rw [analyze_found_inconsistent blt st f now eid p ph hclass hc] at hrun
        injection hrun with h
        injection h with hst hout
        rw [← hst, pushHist_active_event, hact]
        simp
      | true =>
        rw [analyze_found_consistent blt st f now eid p ph hclass hc] at hrun
        obtain ⟨e2, he2⟩ := hsome2 (pushHist st true) hact
          (handle_confirmed_detection (pushHist st true) now eid p ph) rfl
        injection hrun with h
        have hst : (handle_confirmed_detection (pushHist st true) now eid p ph).1
            = st2 := by rw [h]
        rw [← hst, he2]
        simp
    constructor
    · constructor
      · intro hnone
        exact absurd hnone hfalse
      · rintro ⟨hcontra, -⟩
        cases hcontra
    · intro hnone
      exact absurd hnone hfalse

/-- C4 witness: from window `[F,F]` with an active event, a NONE frame at
time 7 pushes `[F,F,F]` and ends the event, recording end time 7. -/
theorem C4_witness :
    ((⟨3, 10, [false, false, false], none, some 7⟩ : ProximityAnalyzer ℤ).active_event
        = none ↔
      classify bltZ edgeFrame = some none ∧
      (dequePush 3 [false, false] false).any id = false) ∧
    ((⟨3, 10, [false, false, false], none, some 7⟩ : ProximityAnalyzer ℤ).active_event
        = none →
      (⟨3, 10, [false, false, false], none, some 7⟩ : ProximityAnalyzer ℤ).last_event_time
        = some 7) :=
  C4_event_end bltZ ⟨3, 10, [false, false], some evNew, none⟩ edgeFrame 7 "z"
    ⟨3, 10, [false, false, false], none, some 7⟩ none evNew rfl (by decide)

/-- C5 counterexample: with N = 3, the run overlap/overlap/overlap (event
"c" created, frame_count 1), then no-overlap (window `[T,T,F]`, event stays
active), then overlap again at time 4 — the classifier finds an overlapping
pair and the event is active, yet frame_count stays 1 instead of being
incremented, refuting "incremented on every call in which the classifier
finds an overlapping pair". -/
theorem C5_counterexample :
    (runSteps bltZ (initAnalyzer ℤ 3 10)
      [(ovFrame, 0, "a"), (ovFrame, 1, "b"), (ovFrame, 2, "c"),
       (edgeFrame, 3, "d")]).map
      (fun r => r.1.active_event.map (fun e => (e.event_id, e.frame_count)))
      = some (some ("c", 1)) ∧
    classify bltZ ovFrame = some (some (mkDet 0 0 10 10, mkDet 5 5 15 15)) ∧
    (runSteps bltZ (initAnalyzer ℤ 3 10)
      [(ovFrame, 0, "a"), (ovFrame, 1, "b"), (ovFrame, 2, "c"),
       (edgeFrame, 3, "d"), (ovFrame, 4, "e")]).map
      (fun r => r.1.active_event.map (fun e => (e.event_id, e.frame_count)))
      = some (some ("c", 1)) := by
  decide

/-- C5 amended: while an event is active, a call on which the classifier
finds an overlapping pair increments its frame_count by exactly 1 only when
the pushed window is temporally consistent (full and all `true`) and the
cooldown check passes; on any other such call the active event is unchanged;
such calls never return a notification (only the active event is ever
mutated, so an event is never updated after it has ended). -/
theorem C5_frame_count_amended {α : Type} (blt : α → α → Bool)
    (st : ProximityAnalyzer α) (f : DetectionFrame α) (now : ℤ) (eid : String)
    (st2 : ProximityAnalyzer α) (out : Option (PhoneUsageEvent α))
    (p ph : Detection α) (ev : PhoneUsageEvent α)
    (hact : st.active_event = some ev)
    (hfound : classify blt f = some (some (p, ph)))
    (hrun : analyze blt st f now eid = some (st2, out)) :
    out = none ∧
    (is_temporally_consistent (pushHist st true) = true →
      cooldown_active st now = false →
      st2.active_event = some { ev with frame_count := ev.frame_count + 1 }) ∧
    (is_temporally_consistent (pushHist st true) = false ∨
      cooldown_active st now = true → st2.active_event = some ev) := by
  have hact2 : (pushHist st true).active_event = some ev := hact
  cases hc : is_temporally_consistent (pushHist st true) with
  | false =>
    rw [analyze_found_inconsistent blt st f now eid p ph hfound hc] at hrun
    injection hrun with h
    injection h with hst hout
    refine ⟨hout.symm, fun hcontra _ => ?_, fun _ => ?_⟩
    · cases hcontra
    · rw [← hst]
      exact hact2
  | true =>
    rw [analyze_found_consistent blt st f now eid p ph hfound hc] at hrun
    cases hcd : cooldown_active st now with
    | true =>
      have hcd2 : cooldown_active (pushHist st true) now = true := by
        rw [cooldown_active_pushHist]; exact hcd
      rw [handle_cooldown _ _ _ _ _ hcd2] at hrun
      injection hrun with h
      injection h with hst hout
      refine ⟨hout.symm, fun _ hcontra => ?_, fun _ => ?_⟩
      · cases hcontra
      · rw [← hst]
        exact hact2
    | false =>
      have hcd2 : cooldown_active (pushHist st true) now = false := by
        rw [cooldown_active_pushHist]; exact hcd
      rw [handle_increment _ _ _ _ _ ev hcd2 hact2] at hrun
      injection hrun with h
      injection h with hst hout
      refine ⟨hout.symm, fun _ _ => by rw [← hst], fun hcontra => ?_⟩
      rcases hcontra with hcontra | hcontra <;> cases hcontra

/-- C5 amended, witness: with window `[T,T]`, active event "e1"
(frame_count 1) and no cooldown, an `ovFrame` call at time 3 returns nothing
and bumps frame_count to 2. -/
theorem C5_witness :
    (none : Option (PhoneUsageEvent ℤ)) = none ∧
    (⟨3, 10, [true, true, true],
        some ⟨"e1", 2, [0, 0, 10, 10], [5, 5, 15, 15], 2⟩, none⟩ :
      ProximityAnalyzer ℤ).active_event =
      some { evNew with frame_count := evNew.frame_count + 1 } :=
  have h := C5_frame_count_amended bltZ ⟨3, 10, [true, true], some evNew, none⟩
    ovFrame 3 "w"
    ⟨3, 10, [true, true, true],
      some ⟨"e1", 2, [0, 0, 10, 10], [5, 5, 15, 15], 2⟩, none⟩ none
    (mkDet 0 0 10 10) (mkDet 5 5 15 15) evNew rfl (by decide) (by decide)
  ⟨h.1, h.2.1 (by decide) (by decide)⟩

/-- C7: a notification (event creation) only happens on a call entered with
no active event and with the cooldown inactive (no last-event-end within
`cooldown_seconds` of `now`), and the created event fills the single
active-event slot. -/
theorem C7_single_active_creation_guard {α : Type} (blt : α → α → Bool)
    (st : ProximityAnalyzer α) (f : DetectionFrame α) (now : ℤ) (eid : String)
    (st2 : ProximityAnalyzer α) (out : Option (PhoneUsageEvent α))
    (ev : PhoneUsageEvent α) (hrun : analyze blt st f now eid = some (st2, out))
    (hout : out = some ev) :
    st.active_event = none ∧ cooldown_active st now = false ∧
    st2.active_event = some ev := by
  subst hout
  rcases hclass : classify blt f with _ | o
  · rw [analyze_classify_raises blt st f now eid hclass] at hrun
    cases hrun
  rcases o with _ | ⟨p, ph⟩
  · rw [analyze_classify_none blt st f now eid hclass] at hrun
    injection hrun with h
    injection h with hst hout2
    cases hout2
  cases hc : is_temporally_consistent (pushHist st true) with
  | false =>
    rw [analyze_found_inconsistent blt st f now eid p ph hclass hc] at hrun
    injection hrun with h
    injection h with hst hout2
    cases hout2
  | true =>
    rw [analyze_found_consistent blt st f now eid p ph hclass hc] at hrun
    cases hcd : cooldown_active (pushHist st true) now with
    | true =>
      rw [handle_cooldown _ _ _ _ _ hcd] at hrun
      injection hrun with h
      injection h with hst hout2
      cases hout2
    | false =>
      rcases hae : st.active_event with _ | e0
      · have hae2 : (pushHist st true).active_event = none := hae
        rw [handle_create _ _ _ _ _ hcd hae2] at hrun
        injection hrun with h
        injection h with hst hout2
        injection hout2 with hev
        subst hev
        refine ⟨rfl, ?_, by rw [← hst]⟩
        rw [← cooldown_active_pushHist st true now]
        exact hcd
      · have hae2 : (pushHist st true).active_event = some e0 := hae
        rw [handle_increment _ _ _ _ _ e0 hcd hae2] at hrun
        injection hrun with h
        injection h with hst hout2
        cases hout2

/-- C7 witness: the concrete creating call from `stPre` at time 2 — no
active event, cooldown inactive, and the new event occupies the slot. -/
theorem C7_witness :
    stPre.active_event = none ∧ cooldown_active stPre 2 = false ∧
    stPost.active_event = some evNew :=
  C7_single_active_creation_guard bltZ stPre ovFrame 2 "e1" stPost
    (some evNew) evNew (by decide) rfl

/-- C6: for every pair of axis-aligned boxes `(x1,y1,x2,y2)`, the overlap
test holds iff both axes overlap under strict inequality
(`a.min < b.max` and `a.max > b.min` on each axis); boxes sharing only a
boundary edge — person (0,0,10,10), phone (10,0,20,10) — are classified
NONE, while person (0,0,10,10) with phone (5,5,15,15) yields FOUND. -/
theorem C6_overlap_strict :
    (∀ a1 b1 a2 b2 c1 d1 c2 d2 : ℤ,
      boxes_overlap bltZ [a1, b1, a2, b2] [c1, d1, c2, d2] = some true ↔
        ((a1 < c2 ∧ a2 > c1) ∧ (b1 < d2 ∧ b2 > d1))) ∧
    classify bltZ edgeFrame = some none ∧
    classify bltZ ovFrame = some (some (mkDet 0 0 10 10, mkDet 5 5 15 15)) := by
  refine ⟨fun a1 b1 a2 b2 c1 d1 c2 d2 => ?_, by decide, by decide⟩
  simp [boxes_overlap, bltZ, and_assoc]

/-- C8 counterexample: the degenerate zero-width person box (5,0,5,10)
(`x1 = x2`) is classified as overlapping the phone box (0,0,10,10), so a
degenerate zero-area box CAN be part of a pair classified as overlapping. -/
theorem C8_counterexample :
    boxes_overlap bltZ [5, 0, 5, 10] [0, 0, 10, 10] = some true ∧
    classify bltZ ⟨[⟨[5, 0, 5, 10], 1, (5, 5)⟩], [mkDet 0 0 10 10]⟩ =
      some (some (⟨[5, 0, 5, 10], 1, (5, 5)⟩, mkDet 0 0 10 10)) := by
  decide

/-- C8 amended: an empty person or phone list always classifies as NONE,
and degenerate zero-area boxes are handled as ordinary inputs rather than
errors — the overlap test still returns a result on them (no exception),
and a degenerate box never overlaps an identical copy of itself — but a
degenerate box strictly inside another box IS classified as overlapping. -/
theorem C8_malformed_amended {α : Type} (blt : α → α → Bool) :
    (∀ f : DetectionFrame α, f.persons = [] ∨ f.phones = [] →
      classify blt f = some none) ∧
    (∀ b1 b2 : List α, b1.length = 4 → b2.length = 4 →
      (boxes_overlap blt b1 b2).isSome = true) ∧
    (∀ x1 y1 x2 y2 : ℤ, x1 = x2 ∨ y1 = y2 →
      boxes_overlap bltZ [x1, y1, x2, y2] [x1, y1, x2, y2] = some false) := by
  refine ⟨fun f hf => ?_, fun b1 b2 h1 h2 => ?_, fun x1 y1 x2 y2 h => ?_⟩
  · unfold classify
    rcases hf with hf | hf <;> simp [hf]
  · match b1, h1, b2, h2 with
    | [u1, u2, u3, u4], _, [v1, v2, v3, v4], _ => rfl
  · rcases h with h | h <;> subst h <;> simp [boxes_overlap, bltZ]

/-- C8 amended, witness: concrete instances — empty person list gives NONE,
the overlap test returns a result on a degenerate box, and the degenerate
box (5,0,5,10) does not overlap itself. -/
theorem C8_witness :
    classify bltZ ⟨[], [mkDet 0 0 10 10]⟩ = some none ∧
    (boxes_overlap bltZ [5, 0, 5, 10] [0, 0, 10, 10]).isSome = true ∧
    boxes_overlap bltZ [5, 0, 5, 10] [5, 0, 5, 10] = some false :=
  ⟨(C8_malformed_amended bltZ).1 ⟨[], [mkDet 0 0 10 10]⟩ (Or.inl rfl),
   (C8_malformed_amended bltZ).2.1 [5, 0, 5, 10] [0, 0, 10, 10] rfl rfl,
   (C8_malformed_amended bltZ).2.2 5 0 5 10 (Or.inl rfl)⟩

lemma boxes_overlap_total {α : Type} (blt : α → α → Bool) (b1 b2 : List α)
    (h1 : b1.length = 4) (h2 : b2.length = 4) :
    (boxes_overlap blt b1 b2).isSome = true := by
  match b1, h1, b2, h2 with
  | [u1, u2, u3, u4], _, [v1, v2, v3, v4], _ => rfl

lemma findPhoneOverlap_total {α : Type} (blt : α → α → Bool)
    (person : Detection α) (phones : List (Detection α))
    (hp : person.bbox.length = 4) (hs : ∀ d ∈ phones, d.bbox.length = 4) :
    (findPhoneOverlap blt person phones).isSome = true := by
  induction phones with
  | nil => rfl
  | cons d rest ih =>
    have hd : d.bbox.length = 4 := hs d (List.mem_cons_self d rest)
    have htot := boxes_overlap_total blt person.bbox d.bbox hp hd
    rcases hov : boxes_overlap blt person.bbox d.bbox with _ | b
    · rw [hov] at htot
      cases htot
    · cases b
      · rw [findPhoneOverlap, hov]
        exact ih (fun e he => hs e (List.mem_cons_of_mem d he))
      · rw [findPhoneOverlap, hov]
        rfl

lemma findOverlapPair_total {α : Type} (blt : α → α → Bool)
    (persons phones : List (Detection α))
    (hper : ∀ d ∈ persons, d.bbox.length = 4)
    (hpho : ∀ d ∈ phones, d.bbox.length = 4) :
    (findOverlapPair blt persons phones).isSome = true := by
  induction persons with
  | nil => rfl
  | cons p rest ih =>
    have hp : p.bbox.length = 4 := hper p (List.mem_cons_self p rest)
    have htot := findPhoneOverlap_total blt p phones hp hpho
    rcases hfp : findPhoneOverlap blt p phones with _ | o
    · rw [hfp] at htot
      cases htot
    · rcases o with _ | ph
      · rw [findOverlapPair, hfp]
        exact ih (fun e he => hper e (List.mem_cons_of_mem p he))
      · rw [findOverlapPair, hfp]
        rfl

lemma classify_total {α : Type} (blt : α → α → Bool) (f : DetectionFrame α)
    (hshape : ∀ d ∈ f.persons ++ f.phones, d.bbox.length = 4) :
    (classify blt f).isSome = true := by
  unfold classify
  split
  · rfl
  · exact findOverlapPair_total blt f.persons f.phones
      (fun d hd => hshape d (List.mem_append_left _ hd))
      (fun d hd => hshape d (List.mem_append_right _ hd))

/-- C9: the classify-and-track step is total over the declared input shape —
for every coordinate type with any boolean comparison (covering degenerate
and NaN-like incomparable coordinates), every tracker state and every frame
whose bounding boxes all have four coordinates, `analyze` returns a result
(never the exception marker). -/
theorem C9_total {α : Type} (blt : α → α → Bool) (st : ProximityAnalyzer α)
    (f : DetectionFrame α) (now : ℤ) (eid : String)
    (hshape : ∀ d ∈ f.persons ++ f.phones, d.bbox.length = 4) :
    (analyze blt st f now eid).isSome = true := by
  have htot := classify_total blt f hshape
  unfold analyze
  rcases hclass : classify blt f with _ | o
  · rw [hclass] at htot
    cases htot
  · rcases o with _ | ⟨p, ph⟩
    · rfl
    · dsimp only
      split <;> rfl

/-- C9 witness: a concrete call — fresh analyzer, overlap frame with boxes
of four coordinates each — returns a result. -/
theorem C9_witness : (analyze bltZ (initAnalyzer ℤ 3 10) ovFrame 0 "w").isSome
    = true :=
  C9_total bltZ (initAnalyzer ℤ 3 10) ovFrame 0 "w" (by decide)

/-- C10: ending an active event (`_check_event_end`) leaves the sliding
window's contents, the configured window size and the cooldown duration
unchanged — the window is never cleared or reset by event termination. -/
theorem C10_event_end_frame_effect {α : Type} (st : ProximityAnalyzer α)
    (now : ℤ) :
    (check_event_end st now).detection_history = st.detection_history ∧
    (check_event_end st now).temporal_frames = st.temporal_frames ∧
    (check_event_end st now).cooldown_seconds = st.cooldown_seconds := by
  unfold check_event_end
  rcases st.active_event with _ | ev
  · exact ⟨rfl, rfl, rfl⟩
  · dsimp only
    split
    · exact ⟨rfl, rfl, rfl⟩
    · exact ⟨rfl, rfl, rfl⟩

end HabitExposer
